import Mathlib

/-!
Verification of the swapchain-lifecycle / frame-submission engine of the
`rust-magma` repository (`src/engine/ctx/vulkan.rs`), as a shallow embedding.

Modelling conventions:
* `u32` dimensions are modelled as `Nat` (no arithmetic is performed on them,
  so overflow never matters).
* `f32` vertex coordinates and clear-color components are modelled as `Rat`
  (every literal appearing in the source is exactly representable).
* Vulkan API calls whose outcome depends on the driver/OS are modelled by an
  explicit per-frame environment (`FrameEnv`) supplying the result of each
  fallible call, in the order the source makes them.  A Rust `panic!` /
  `.expect(...)` is modelled by the `panic` constructor of the outcome type.
* `vulkano` `GpuFuture` combinator chains are modelled syntactically by the
  inductive `GpuFuture`, recording exactly which combinators the source
  applies and in which order.
* Opaque process-lifetime handles of `GraphicsHandler` (`instance`, `device`,
  `queue`, `render_pass`, `pipeline`) carry no state the embedded code reads
  or writes, so they are not represented as fields; `sync::now(device)` is
  `GpuFuture.now`.
-/

namespace RustMagma

/-- Surface / image dimensions `[u32; 2]` (width, height). -/
abbrev Dims := Nat × Nat

/-- A `SwapchainImage`, tracked by its dimensions (`image.dimensions()`). -/
structure SwapchainImage where
  dims : Dims
deriving DecidableEq, Repr

instance : Inhabited SwapchainImage := ⟨⟨(0, 0)⟩⟩

/-- A `Framebuffer` built (in `window_size_dependent_setup`) from the image view
of one swapchain image. -/
structure Framebuffer where
  imageDims : Dims
deriving DecidableEq, Repr

/-- `vulkano` `DynamicState`; the source only ever writes/reads the `viewports`
field (one viewport whose `dimensions` are the chain image dimensions), so the
remaining always-`None` fields are elided. -/
structure DynamicState where
  viewports : Option Dims
deriving DecidableEq, Repr

/-- The `Swapchain` object, tracked by the dimensions it was built with. -/
structure Swapchain where
  dims : Dims
deriving DecidableEq, Repr

/-- `Vertex { position: [f32; 2] }`. -/
structure Vertex where
  position : Rat × Rat
deriving DecidableEq, Repr

/-- `VertexArray { data: Vec<Vertex> }`. -/
structure VertexArray where
  data : List Vertex
deriving DecidableEq, Repr

/-- `impl From<Vec<Vertex>> for VertexArray`. -/
def VertexArray.fromVertices (vec : List Vertex) : VertexArray :=
  { data := vec }

/-- `VertexBuffer { buffer: Arc<CpuAccessibleBuffer<[Vertex]>> }`; the buffer
holds a copy of the array's data (`from_iter(..., array.data.iter().cloned())`).
Allocation failure (`DeviceMemoryAllocError`) is driven by the frame
environment at the call site. -/
structure VertexBuffer where
  buffer : List Vertex
deriving DecidableEq, Repr

/-- `VertexBuffer::new` (successful case; the failure case is the environment's
`allocOk = false` at the call site in `vulkan_loop`). -/
def VertexBuffer.new (array : VertexArray) : VertexBuffer :=
  { buffer := array.data }

/-- The fixed triangle recorded every frame in `vulkan_loop`:
`[-0.5, -0.25]`, `[0.0, 0.5]`, `[0.25, -0.1]`. -/
def triangleVertices : List Vertex :=
  [⟨(mkRat (-1) 2, mkRat (-1) 4)⟩, ⟨(0, mkRat 1 2)⟩, ⟨(mkRat 1 4, mkRat (-1) 10)⟩]

/-- One command recorded into the `AutoCommandBufferBuilder`. -/
inductive Command where
  /-- `begin_render_pass(framebuffers[image_num], Inline, clear_values)` -/
  | beginRenderPass (fb : Framebuffer) (clearValues : List Rat)
  /-- `draw(pipeline, &dynamic_state, vertex_buffer, (), (), vec![])` -/
  | draw (viewports : Option Dims) (vertexBuffer : List Vertex)
  /-- `end_render_pass()` -/
  | endRenderPass
deriving DecidableEq, Repr

/-- The built primary command buffer: the sequence of recorded commands. -/
structure CommandBuffer where
  commands : List Command
deriving DecidableEq, Repr

/-- Syntactic model of `vulkano` `GpuFuture` values as the source builds them. -/
inductive GpuFuture where
  /-- `sync::now(device)` — an already-complete future. -/
  | now
  /-- The acquire future returned by `swapchain::acquire_next_image` for a
  given image index. -/
  | acquire (imageNum : Nat)
  /-- `a.join(b)` — completes when both complete. -/
  | join (a b : GpuFuture)
  /-- `pre.then_execute(queue, command_buffer)`. -/
  | thenExecute (pre : GpuFuture) (cmd : CommandBuffer)
  /-- `pre.then_swapchain_present(queue, chain, image_num)`. -/
  | thenSwapchainPresent (pre : GpuFuture) (chainDims : Dims) (imageNum : Nat)
  /-- `pre.then_signal_fence_and_flush()` (successfully flushed fence). -/
  | fenceSignal (pre : GpuFuture)
deriving DecidableEq, Repr

/-- The `SwapchainHandler` struct. -/
structure SwapchainHandler where
  chain : Swapchain
  images : List SwapchainImage
  framebuffers : List Framebuffer
  must_recreate : Bool
  dynamic_state : DynamicState
deriving DecidableEq, Repr

/-- The `GraphicsHandler` struct (mutable state only; see the module comment
for the elided opaque handles). -/
structure GraphicsHandler where
  swapchain : SwapchainHandler
  previous_frame_end : Option GpuFuture
deriving DecidableEq, Repr

/-- Outcome of `self.chain.recreate().dimensions(dimensions).build()`,
supplied by the environment (`SwapchainCreationError` cases the source
distinguishes). -/
inductive RecreateResult where
  | ok
  | unsupportedDimensions
  | otherError (msg : String)
deriving DecidableEq, Repr

/-- Outcome of `swapchain::acquire_next_image(chain, None)`, supplied by the
environment (`AcquireError` cases the source distinguishes). -/
inductive AcquireResult where
  | ok (imageNum : Nat) (suboptimal : Bool)
  | outOfDate
  | otherError (msg : String)
deriving DecidableEq, Repr

/-- Outcome of `then_signal_fence_and_flush()`, supplied by the environment
(`FlushError` cases the source distinguishes). -/
inductive FlushResult where
  | ok
  | outOfDate
  | otherError (msg : String)
deriving DecidableEq, Repr

/-- Per-frame environment: the window's current size and the results of every
fallible driver call `vulkan_loop` makes, in source order. -/
structure FrameEnv where
  /-- `window.size()` at the moment `check_and_recreate` reads it. -/
  windowSize : Dims
  /-- result of the swapchain rebuild inside `check_and_recreate`. -/
  recreate : RecreateResult
  /-- result of `swapchain::acquire_next_image`. -/
  acquire : AcquireResult
  /-- `AutoCommandBufferBuilder::primary` succeeds. -/
  cmdBuilderOk : Bool
  /-- vertex-buffer allocation (`CpuAccessibleBuffer::from_iter`) succeeds. -/
  allocOk : Bool
  /-- `begin_render_pass` succeeds. -/
  beginPassOk : Bool
  /-- `draw` succeeds. -/
  drawOk : Bool
  /-- `end_render_pass` succeeds. -/
  endPassOk : Bool
  /-- `builder.build()` succeeds. -/
  buildOk : Bool
  /-- `then_execute` succeeds. -/
  thenExecuteOk : Bool
  /-- result of `then_signal_fence_and_flush`. -/
  flush : FlushResult
deriving DecidableEq, Repr

/-- `images[0].dimensions()`; the source indexes `images[0]` unconditionally
(Vulkan guarantees at least one image), which `headI` models with a default on
the unreachable empty case. -/
def window_size_dependent_setup (images : List SwapchainImage)
    (dynamic_state : DynamicState) : List Framebuffer × DynamicState :=
  let dimensions : Dims := images.headI.dims
  let ds : DynamicState := { dynamic_state with viewports := some dimensions }
  (images.map fun image => { imageDims := image.dims }, ds)

/-- Outcome of `SwapchainHandler::check_and_recreate` (functional form of the
`&mut self` method: each constructor carries the post-state). -/
inductive RecreateOutcome where
  /-- `Ok(())` -/
  | ok (s : SwapchainHandler)
  /-- `Err(())` — the `UnsupportedDimensions` early return. -/
  | err (s : SwapchainHandler)
  /-- `panic!("Failed to recreate swapchain: ...")` -/
  | panic (msg : String)
deriving DecidableEq, Repr

/-- `SwapchainHandler::check_and_recreate`.  The recreated chain's images are
built at the freshly read window dimensions and keep the previous image count
(`vulkano` `recreate()` inherits `num_images`). -/
def SwapchainHandler.check_and_recreate (s : SwapchainHandler) (windowSize : Dims)
    (res : RecreateResult) : RecreateOutcome :=
  if s.must_recreate then
    let dimensions : Dims := windowSize
    match res with
    | .unsupportedDimensions => .err s
    | .otherError msg => .panic ("Failed to recreate swapchain: " ++ msg)
    | .ok =>
      let new_swapchain : Swapchain := { dims := dimensions }
      let new_images : List SwapchainImage := s.images.map fun _ => { dims := dimensions }
      let s₁ : SwapchainHandler := { s with chain := new_swapchain, images := new_images }
      let fbds := window_size_dependent_setup s₁.images s₁.dynamic_state
      .ok { s₁ with framebuffers := fbds.1, dynamic_state := fbds.2, must_recreate := false }
  else
    .ok s

/-- `SwapchainHandler::get_recreate`. -/
def SwapchainHandler.get_recreate (s : SwapchainHandler) : Bool :=
  s.must_recreate

/-- `SwapchainHandler::set_recreate`. -/
def SwapchainHandler.set_recreate (s : SwapchainHandler) (new_value : Bool) :
    SwapchainHandler :=
  { s with must_recreate := new_value }

/-- The image-count choice at bootstrap (`GraphicsHandler::new`):
`match caps.max_image_count { None => max(2, caps.min_image_count),
Some(limit) => min(max(2, caps.min_image_count), limit) }`. -/
def buffers_count (min_image_count : Nat) (max_image_count : Option Nat) : Nat :=
  match max_image_count with
  | none => max 2 min_image_count
  | some limit => min (max 2 min_image_count) limit

/-- Outcome of one call of `GraphicsHandler::vulkan_loop` (functional form of
the `&mut self` method).  `recorded`/`submitted` are the command buffer built
and the future chain flushed this frame, when the frame got that far; both are
`none` on the early returns. -/
inductive LoopOutcome where
  | ret (g : GraphicsHandler) (recorded : Option CommandBuffer)
        (submitted : Option GpuFuture)
  | panic (msg : String)
deriving DecidableEq, Repr

/-- `GraphicsHandler::vulkan_loop(&mut self, resized: bool, window: &Window)`.
Driver-dependent call results come from `env` in source order.
`cleanup_finished()` frees host resources of already-finished futures and has
no observable effect on the modelled state, but its `as_mut().unwrap()` panics
when `previous_frame_end` is `None`. -/
def GraphicsHandler.vulkan_loop (g : GraphicsHandler) (resized : Bool)
    (env : FrameEnv) : LoopOutcome :=
  let recreate : Bool := if resized then true else g.swapchain.get_recreate
  let g₀ : GraphicsHandler := { g with swapchain := g.swapchain.set_recreate recreate }
  match g₀.swapchain.check_and_recreate env.windowSize env.recreate with
  | .panic msg => .panic msg
  | .err s =>
    -- "Not an actual error, just a way to signify the need to retry": return;
    .ret { g₀ with swapchain := s } none none
  | .ok s =>
    let g₁ : GraphicsHandler := { g₀ with swapchain := s }
    match g₁.previous_frame_end with
    | none => .panic ("called Option unwrap on a None value")
    | some prev =>
      match env.acquire with
      | .outOfDate =>
        .ret { g₁ with swapchain := g₁.swapchain.set_recreate true } none none
      | .otherError msg =>
        .panic ("Couldn't acquire next image from Vulkan Swapchain: " ++ msg)
      | .ok image_num suboptimal =>
        let g₂ : GraphicsHandler :=
          { g₁ with swapchain := g₁.swapchain.set_recreate suboptimal }
        let clear_values : List Rat := [0, 0, 1, 1]
        if env.cmdBuilderOk = false then
          .panic ("Couldn't build Vulkan AutoCommandBuffer")
        else
          let vao : VertexArray := VertexArray.fromVertices triangleVertices
          if env.allocOk = false then
            .panic ("Error on Vertex Buffer Creation: Graphics Device memory allocation error")
          else
            let vb : VertexBuffer := VertexBuffer.new vao
            match g₂.swapchain.framebuffers.get? image_num with
            | none => .panic ("index out of bounds")
            | some fb =>
              if env.beginPassOk = false then
                .panic ("Couldn't begin Vulkan Render Pass")
              else if env.drawOk = false then
                .panic ("Couldn't add Draw command to Vulkan Render Pass")
              else if env.endPassOk = false then
                .panic ("Couldn't properly end Vulkan Render Pass")
              else if env.buildOk = false then
                .panic ("Couldn't build Vulkan Command Buffer")
              else
                let command_buffer : CommandBuffer :=
                  { commands :=
                      [Command.beginRenderPass fb clear_values,
                       Command.draw g₂.swapchain.dynamic_state.viewports vb.buffer,
                       Command.endRenderPass] }
                if env.thenExecuteOk = false then
                  .panic ("Couldn't execute Vulkan Command Buffer")
                else
                  let future : GpuFuture :=
                    .fenceSignal
                      (.thenSwapchainPresent
                        (.thenExecute (.join prev (.acquire image_num)) command_buffer)
                        g₂.swapchain.chain.dims image_num)
                  match env.flush with
                  | .ok =>
                    .ret { g₂ with previous_frame_end := some future }
                      (some command_buffer) (some future)
                  | .outOfDate =>
                    .ret { g₂ with
                            swapchain := g₂.swapchain.set_recreate true,
                            previous_frame_end := some GpuFuture.now }
                      (some command_buffer) (some future)
                  | .otherError _ =>
                    -- eprintln! diagnostic, then continue with a fresh future
                    .ret { g₂ with previous_frame_end := some GpuFuture.now }
                      (some command_buffer) (some future)

/-- Run a sequence of frames; stops (returning `none`) as soon as any frame
panics. -/
def GraphicsHandler.runFrames (g : GraphicsHandler) :
    List (Bool × FrameEnv) → Option GraphicsHandler
  | [] => some g
  | (resized, env) :: rest =>
    match g.vulkan_loop resized env with
    | .ret g' _ _ => g'.runFrames rest
    | .panic _ => none

/-- Discriminator: did the loop body end in a Rust `panic!` (process
termination)? -/
def LoopOutcome.isPanic : LoopOutcome → Bool
  | .ret _ _ _ => false
  | .panic _ => true

/-! Concrete fixtures used by witnesses and counterexamples. -/

/-- A framebuffer for an 800×600 image. -/
def fb800 : Framebuffer := { imageDims := (800, 600) }

/-- A healthy two-image 800×600 swapchain state. -/
def chain800 : SwapchainHandler :=
  { chain := { dims := (800, 600) },
    images := [⟨(800, 600)⟩, ⟨(800, 600)⟩],
    framebuffers := [fb800, fb800],
    must_recreate := false,
    dynamic_state := { viewports := some (800, 600) } }

/-- The same state already flagged stale. -/
def staleChain800 : SwapchainHandler :=
  { chain800 with must_recreate := true }

/-- A `GraphicsHandler` about to render its first frame. -/
def g800 : GraphicsHandler :=
  { swapchain := chain800, previous_frame_end := some GpuFuture.now }

/-- The same handler with a stale swapchain. -/
def gStale800 : GraphicsHandler :=
  { swapchain := staleChain800, previous_frame_end := some GpuFuture.now }

/-- An environment in which every driver call succeeds (image 0 acquired, not
suboptimal). -/
def okEnv : FrameEnv :=
  { windowSize := (800, 600), recreate := .ok, acquire := .ok 0 false,
    cmdBuilderOk := true, allocOk := true, beginPassOk := true, drawOk := true,
    endPassOk := true, buildOk := true, thenExecuteOk := true, flush := .ok }

/-- The command buffer recorded by a successful 800×600 frame on image 0. -/
def cmd800 : CommandBuffer :=
  { commands :=
      [Command.beginRenderPass fb800 [0, 0, 1, 1],
       Command.draw (some (800, 600)) triangleVertices,
       Command.endRenderPass] }

/-- The future chain flushed by that frame. -/
def fut800 : GpuFuture :=
  .fenceSignal
    (.thenSwapchainPresent
      (.thenExecute (.join .now (.acquire 0)) cmd800) (800, 600) 0)

/-- `g800` after that frame completed: same swapchain, new completion future. -/
def g800' : GraphicsHandler :=
  { swapchain := chain800, previous_frame_end := some fut800 }

/-- `staleChain800` after a successful recreation at 640×480. -/
def recreated640 : SwapchainHandler :=
  { chain := { dims := (640, 480) },
    images := [⟨(640, 480)⟩, ⟨(640, 480)⟩],
    framebuffers := [⟨(640, 480)⟩, ⟨(640, 480)⟩],
    must_recreate := false,
    dynamic_state := { viewports := some (640, 480) } }

/-- The command buffer recorded right after a successful recreation at 640×480
(image 0). -/
def cmd640 : CommandBuffer :=
  { commands :=
      [Command.beginRenderPass ⟨(640, 480)⟩ [0, 0, 1, 1],
       Command.draw (some (640, 480)) triangleVertices,
       Command.endRenderPass] }

/-- The future flushed by that frame, chained after `fut800`. -/
def fut640 : GpuFuture :=
  .fenceSignal
    (.thenSwapchainPresent
      (.thenExecute (.join fut800 (.acquire 0)) cmd640) (640, 480) 0)

/-- The image-count formula exactly as the specification states it: at least 2,
clamped to the device maximum when one is reported (refinement target for the
bootstrap image-count choice; written from the claim, to be compared with
`buffers_count`, which is written from the source). -/
def buffers_count_claimed (min_image_count : Nat) (max_image_count : Option Nat) : Nat :=
  match max_image_count with
  | none => max 2 min_image_count
  | some limit => min (max 2 min_image_count) limit

/-! Helper lemmas. -/

@[simp]
theorem set_recreate_must_recreate (s : SwapchainHandler) (b : Bool) :
    (s.set_recreate b).must_recreate = b := rfl

@[simp]
theorem set_recreate_chain (s : SwapchainHandler) (b : Bool) :
    (s.set_recreate b).chain = s.chain := rfl

@[simp]
theorem set_recreate_images (s : SwapchainHandler) (b : Bool) :
    (s.set_recreate b).images = s.images := rfl

@[simp]
theorem set_recreate_framebuffers (s : SwapchainHandler) (b : Bool) :
    (s.set_recreate b).framebuffers = s.framebuffers := rfl

@[simp]
theorem set_recreate_dynamic_state (s : SwapchainHandler) (b : Bool) :
    (s.set_recreate b).dynamic_state = s.dynamic_state := rfl

@[simp]
theorem get_recreate_eq (s : SwapchainHandler) :
    s.get_recreate = s.must_recreate := rfl

/-- The merged staleness flag computed at the top of `vulkan_loop`. -/
theorem merged_flag_eq (resized : Bool) (s : SwapchainHandler) :
    (if resized then true else s.get_recreate) = (resized || s.must_recreate) := by
  cases resized <;> simp

/-- Elimination for the `Err(())` outcome of `check_and_recreate`: it arises
only from the `UnsupportedDimensions` branch, with the handler untouched. -/
theorem check_and_recreate_err_elim {s s' : SwapchainHandler} {w : Dims}
    {res : RecreateResult}
    (h : s.check_and_recreate w res = RecreateOutcome.err s') :
    s' = s ∧ s.must_recreate = true ∧ res = RecreateResult.unsupportedDimensions := by
  unfold SwapchainHandler.check_and_recreate at h
  by_cases hm : s.must_recreate = true
  · rw [hm] at h
    simp only [if_true] at h
    cases res <;> simp_all
  · simp only [Bool.not_eq_true] at hm
    rw [hm] at h
    simp at h

/-- Elimination for the `Ok(())` outcome of `check_and_recreate`: either the
handler was not stale and nothing changed, or it was stale, the rebuild
succeeded, and the new chain/images/framebuffers/viewport are all derived from
the freshly read window size. -/
theorem check_and_recreate_ok_elim {s s' : SwapchainHandler} {w : Dims}
    {res : RecreateResult}
    (h : s.check_and_recreate w res = RecreateOutcome.ok s') :
    (s.must_recreate = false ∧ s' = s) ∨
    (s.must_recreate = true ∧ res = RecreateResult.ok ∧
      s' = { chain := { dims := w },
             images := s.images.map fun _ => { dims := w },
             framebuffers := (s.images.map fun _ => ({ dims := w } : SwapchainImage)).map
               fun image => { imageDims := image.dims },
             must_recreate := false,
             dynamic_state := { s.dynamic_state with
               viewports := some (s.images.map fun _ =>
                 ({ dims := w } : SwapchainImage)).headI.dims } }) := by
  unfold SwapchainHandler.check_and_recreate at h
  by_cases hm : s.must_recreate = true
  · rw [hm] at h
    simp only [if_true] at h
    cases res with
    | ok =>
      right
      refine ⟨hm, rfl, ?_⟩
      simp only [window_size_dependent_setup] at h
      cases h
      rfl
    | unsupportedDimensions => simp at h
    | otherError msg => simp at h
  · simp only [Bool.not_eq_true] at hm
    rw [hm] at h
    simp only [Bool.false_eq_true, if_false, RecreateOutcome.ok.injEq] at h
    exact Or.inl ⟨hm, h.symm⟩

/-- Master case analysis: every non-panicking run of the loop body is one of
(1) the recreation-failed early return, (2) the acquire-`OutOfDate` early
return, or (3) a full frame that recorded and flushed, further split by the
flush result. -/
theorem vulkan_loop_ret_cases
    (g : GraphicsHandler) (resized : Bool) (env : FrameEnv)
    (g' : GraphicsHandler) (rec : Option CommandBuffer) (sub : Option GpuFuture)
    (hret : g.vulkan_loop resized env = LoopOutcome.ret g' rec sub) :
    (∃ s₀,
      (g.swapchain.set_recreate (resized || g.swapchain.must_recreate)).check_and_recreate
          env.windowSize env.recreate = RecreateOutcome.err s₀ ∧
      g' = ⟨s₀, g.previous_frame_end⟩ ∧ rec = none ∧ sub = none) ∨
    (∃ s₀ prev,
      (g.swapchain.set_recreate (resized || g.swapchain.must_recreate)).check_and_recreate
          env.windowSize env.recreate = RecreateOutcome.ok s₀ ∧
      g.previous_frame_end = some prev ∧
      env.acquire = AcquireResult.outOfDate ∧
      g' = ⟨s₀.set_recreate true, some prev⟩ ∧ rec = none ∧ sub = none) ∨
    (∃ s₀ prev n so fb,
      (g.swapchain.set_recreate (resized || g.swapchain.must_recreate)).check_and_recreate
          env.windowSize env.recreate = RecreateOutcome.ok s₀ ∧
      g.previous_frame_end = some prev ∧
      env.acquire = AcquireResult.ok n so ∧
      s₀.framebuffers.get? n = some fb ∧
      rec = some { commands :=
        [Command.beginRenderPass fb [0, 0, 1, 1],
         Command.draw s₀.dynamic_state.viewports triangleVertices,
         Command.endRenderPass] } ∧
      sub = some (GpuFuture.fenceSignal
        (GpuFuture.thenSwapchainPresent
          (GpuFuture.thenExecute (GpuFuture.join prev (GpuFuture.acquire n))
            { commands :=
              [Command.beginRenderPass fb [0, 0, 1, 1],
               Command.draw s₀.dynamic_state.viewports triangleVertices,
               Command.endRenderPass] })
          s₀.chain.dims n)) ∧
      ((env.flush = FlushResult.ok ∧ g' = ⟨s₀.set_recreate so, sub⟩) ∨
       (env.flush = FlushResult.outOfDate ∧
          g' = ⟨(s₀.set_recreate so).set_recreate true, some GpuFuture.now⟩) ∨
       ((∃ m, env.flush = FlushResult.otherError m) ∧
          g' = ⟨s₀.set_recreate so, some GpuFuture.now⟩))) := by
  simp only [GraphicsHandler.vulkan_loop, merged_flag_eq] at hret
  split at hret
  next msg heq => simp at hret
  next s heq =>
    simp only [LoopOutcome.ret.injEq] at hret
    obtain ⟨hg, hrec, hsub⟩ := hret
    exact Or.inl ⟨s, heq, hg.symm, hrec.symm, hsub.symm⟩
  next s heq =>
    split at hret
    next hprev => simp at hret
    next prev hprev =>
      split at hret
      next hacq =>
        simp only [LoopOutcome.ret.injEq] at hret
        obtain ⟨hg, hrec, hsub⟩ := hret
        rw [hprev] at hg
        exact Or.inr (Or.inl ⟨s, prev, heq, hprev, hacq, hg.symm, hrec.symm, hsub.symm⟩)
      next msg hacq => simp at hret
      next n so hacq =>
        dsimp only [SwapchainHandler.set_recreate, VertexBuffer.new,
          VertexArray.fromVertices] at hret
        split at hret
        next hb => simp at hret
        next hb =>
          split at hret
          next hb2 => simp at hret
          next hb2 =>
            split at hret
            next hfb => simp at hret
            next fb hfb =>
              split at hret
              next hb3 => simp at hret
              next hb3 =>
                split at hret
                next hb4 => simp at hret
                next hb4 =>
                  split at hret
                  next hb5 => simp at hret
                  next hb5 =>
                    split at hret
                    next hb6 => simp at hret
                    next hb6 =>
                      split at hret
                      next hb7 => simp at hret
                      next hb7 =>
                        split at hret
                        next hfl =>
                          simp only [LoopOutcome.ret.injEq] at hret
                          obtain ⟨hg, hrec, hsub⟩ := hret
                          refine Or.inr (Or.inr ⟨s, prev, n, so, fb, heq, hprev,
                            hacq, hfb, hrec.symm, hsub.symm, Or.inl ⟨hfl, ?_⟩⟩)
                          rw [← hg, ← hsub]
                          rfl
                        next hfl =>
                          simp only [LoopOutcome.ret.injEq] at hret
                          obtain ⟨hg, hrec, hsub⟩ := hret
                          exact Or.inr (Or.inr ⟨s, prev, n, so, fb, heq, hprev,
                            hacq, hfb, hrec.symm, hsub.symm,
                            Or.inr (Or.inl ⟨hfl, hg.symm⟩)⟩)
                        next msg hfl =>
                          simp only [LoopOutcome.ret.injEq] at hret
                          obtain ⟨hg, hrec, hsub⟩ := hret
                          exact Or.inr (Or.inr ⟨s, prev, n, so, fb, heq, hprev,
                            hacq, hfb, hrec.symm, hsub.symm,
                            Or.inr (Or.inr ⟨⟨msg, hfl⟩, hg.symm⟩)⟩)

/-! Claim theorems. -/

/-- Claim C8: at bootstrap the presentable-image count N is chosen from the
surface capability bounds as: with no reported maximum,
N = max(2, min_image_count); with a reported maximum,
N = min(max(2, min_image_count), maximum) — at least 2 but clamped to the
device maximum.  The source formula (`buffers_count`) coincides with the
formula the claim states (`buffers_count_claimed`). -/
theorem C8_image_count_choice :
    ∀ (min_image_count : Nat) (max_image_count : Option Nat),
      buffers_count min_image_count max_image_count =
        buffers_count_claimed min_image_count max_image_count := by
  intro minc maxc
  cases maxc <;> rfl

/-- Claim C6: a recreation attempt that fails with UnsupportedDimensions leaves
the previous chain, its images, its framebuffers and the viewport state exactly
as they were (`check_and_recreate` returns with the handler untouched, stale
flag still true), and the calling frame is abandoned with a benign early
return — no panic — so a later frame retries. -/
theorem C6_unsupported_dimensions_preserves_chain
    (s : SwapchainHandler) (w : Dims) (hs : s.must_recreate = true)
    (g : GraphicsHandler) (resized : Bool) (env : FrameEnv)
    (henv : env.recreate = RecreateResult.unsupportedDimensions)
    (hstale : (resized || g.swapchain.must_recreate) = true) :
    s.check_and_recreate w RecreateResult.unsupportedDimensions =
      RecreateOutcome.err s ∧
    g.vulkan_loop resized env =
      LoopOutcome.ret ⟨g.swapchain.set_recreate true, g.previous_frame_end⟩
        none none := by
  constructor
  · unfold SwapchainHandler.check_and_recreate
    rw [hs]
    simp
  · simp only [GraphicsHandler.vulkan_loop, merged_flag_eq, hstale]
    unfold SwapchainHandler.check_and_recreate
    simp [henv]

/-- Witness for C6: a stale 800×600 handler, window shrunk to (0,0), recreation
rejected — everything is intact and the frame is abandoned early. -/
theorem C6_witness :
    staleChain800.check_and_recreate (0, 0) RecreateResult.unsupportedDimensions =
      RecreateOutcome.err staleChain800 ∧
    gStale800.vulkan_loop false
        { okEnv with windowSize := (0, 0), recreate := .unsupportedDimensions } =
      LoopOutcome.ret ⟨staleChain800.set_recreate true, some GpuFuture.now⟩
        none none := by
  have h := C6_unsupported_dimensions_preserves_chain staleChain800 (0, 0)
    (by decide) gStale800 false
    { okEnv with windowSize := (0, 0), recreate := .unsupportedDimensions }
    (by decide) (by decide)
  exact ⟨h.1, h.2⟩

/-- Claim C10: after initial setup and after every successful recreation the
viewport stored in the dynamic state equals the dimensions of the new image
set's first image (`images[0].dimensions()`), which for a recreation equals the
freshly read window size. -/
theorem C10_viewport_matches_images
    (images : List SwapchainImage) (ds : DynamicState)
    (s s' : SwapchainHandler) (w : Dims) (hs : s.must_recreate = true)
    (himg : s.images ≠ [])
    (hrec : s.check_and_recreate w RecreateResult.ok = RecreateOutcome.ok s') :
    (window_size_dependent_setup images ds).2.viewports = some images.headI.dims ∧
    s'.dynamic_state.viewports = some s'.images.headI.dims ∧
    s'.images.headI.dims = w := by
  refine ⟨rfl, ?_, ?_⟩
  · rcases check_and_recreate_ok_elim hrec with ⟨hm, -⟩ | ⟨-, -, hs'⟩
    · rw [hm] at hs; cases hs
    · subst hs'; rfl
  · rcases check_and_recreate_ok_elim hrec with ⟨hm, -⟩ | ⟨-, -, hs'⟩
    · rw [hm] at hs; cases hs
    · subst hs'
      cases himgs : s.images with
      | nil => exact absurd himgs himg
      | cons a l => simp [himgs]

/-- Witness for C10: recreating the stale 800×600 handler at 640×480 leaves the
viewport at exactly 640×480, the new first image's dimensions. -/
theorem C10_witness :
    (window_size_dependent_setup [⟨(640, 480)⟩] { viewports := none }).2.viewports =
      some (([⟨(640, 480)⟩] : List SwapchainImage).headI.dims) ∧
    recreated640.dynamic_state.viewports = some recreated640.images.headI.dims ∧
    recreated640.images.headI.dims = (640, 480) := by
  exact C10_viewport_matches_images [⟨(640, 480)⟩] { viewports := none }
    staleChain800 recreated640 (640, 480) (by decide) (by decide) (by decide)

/-- Claim C5: when acquisition reports OutOfDate the frame is abandoned before
any command recording: the loop returns early and benignly (no panic, nothing
recorded, nothing submitted or presented, previous completion future
untouched), and the stale flag is true immediately afterward. -/
theorem C5_acquire_out_of_date_abandons_frame
    (g : GraphicsHandler) (resized : Bool) (env : FrameEnv)
    (s₀ : SwapchainHandler) (prev : GpuFuture)
    (hchk : (g.swapchain.set_recreate
        (resized || g.swapchain.must_recreate)).check_and_recreate
        env.windowSize env.recreate = RecreateOutcome.ok s₀)
    (hprev : g.previous_frame_end = some prev)
    (hacq : env.acquire = AcquireResult.outOfDate) :
    g.vulkan_loop resized env =
      LoopOutcome.ret ⟨s₀.set_recreate true, some prev⟩ none none ∧
    (s₀.set_recreate true).must_recreate = true := by
  refine ⟨?_, rfl⟩
  simp only [GraphicsHandler.vulkan_loop, merged_flag_eq, hchk, hprev, hacq]

/-- Witness for C5: a healthy 800×600 frame whose acquisition comes back
OutOfDate is abandoned with the flag set. -/
theorem C5_witness :
    g800.vulkan_loop false { okEnv with acquire := .outOfDate } =
      LoopOutcome.ret ⟨(chain800.set_recreate false).set_recreate true,
        some GpuFuture.now⟩ none none ∧
    ((chain800.set_recreate false).set_recreate true).must_recreate = true := by
  exact C5_acquire_out_of_date_abandons_frame g800 false
    { okEnv with acquire := .outOfDate } (chain800.set_recreate false)
    GpuFuture.now (by decide) (by decide) (by decide)

/-- Claim C7: last-resize-wins — after any sequence of frames, a frame whose
recreation succeeds builds the chain at the window size read at that very
recreation, not at any size captured earlier. -/
theorem C7_last_resize_wins
    (g : GraphicsHandler) (frames : List (Bool × FrameEnv))
    (g₁ g₂ : GraphicsHandler) (resized : Bool) (env : FrameEnv)
    (rec : Option CommandBuffer) (sub : Option GpuFuture)
    (_hrun : g.runFrames frames = some g₁)
    (hstale : (resized || g₁.swapchain.must_recreate) = true)
    (hok : env.recreate = RecreateResult.ok)
    (hret : g₁.vulkan_loop resized env = LoopOutcome.ret g₂ rec sub) :
    g₂.swapchain.chain.dims = env.windowSize := by
  rcases vulkan_loop_ret_cases g₁ resized env g₂ rec sub hret with
    ⟨s₀, herr, hg, -, -⟩ | ⟨s₀, prev, hchk, hprev, hacq, hg, -, -⟩ |
    ⟨s₀, prev, n, so, fb, hchk, hprev, hacq, hfb, hrec, hsub, hflush⟩
  · rcases check_and_recreate_err_elim herr with ⟨-, -, hres⟩
    rw [hok] at hres
    cases hres
  · rcases check_and_recreate_ok_elim hchk with ⟨hm, rfl⟩ | ⟨-, -, hs'⟩
    · simp [hstale] at hm
    · subst hs'
      rw [hg]
      rfl
  · rcases check_and_recreate_ok_elim hchk with ⟨hm, rfl⟩ | ⟨-, -, hs'⟩
    · simp [hstale] at hm
    · rcases hflush with ⟨-, hg⟩ | ⟨-, hg⟩ | ⟨-, hg⟩ <;>
        (subst hs'; rw [hg]; rfl)

/-- Witness for C7: after one clean 800×600 frame, a resize-triggered frame at
window size 640×480 recreates the chain at exactly 640×480. -/
theorem C7_witness :
    GraphicsHandler.vulkan_loop g800' true { okEnv with windowSize := (640, 480) } =
      LoopOutcome.ret ⟨recreated640, some fut640⟩ (some cmd640) (some fut640) ∧
    (⟨recreated640, some fut640⟩ : GraphicsHandler).swapchain.chain.dims =
      (640, 480) := by
  have hret : GraphicsHandler.vulkan_loop g800' true
      { okEnv with windowSize := (640, 480) } =
      LoopOutcome.ret ⟨recreated640, some fut640⟩ (some cmd640) (some fut640) := by
    decide
  refine ⟨hret, ?_⟩
  exact C7_last_resize_wins g800 [(false, okEnv)] g800' ⟨recreated640, some fut640⟩
    true { okEnv with windowSize := (640, 480) } (some cmd640) (some fut640)
    (by decide) (by decide) (by decide) hret

/-- Claim C2: the previous-completion-future handle is Some after every
completed (non-panicking) call of the loop body, including frames abandoned
early by a failed recreation, an OutOfDate acquisition, or a recoverable
flush failure. -/
theorem C2_previous_frame_end_always_some
    (g : GraphicsHandler) (resized : Bool) (env : FrameEnv)
    (g' : GraphicsHandler) (rec : Option CommandBuffer) (sub : Option GpuFuture)
    (hsome : g.previous_frame_end.isSome = true)
    (hret : g.vulkan_loop resized env = LoopOutcome.ret g' rec sub) :
    g'.previous_frame_end.isSome = true := by
  rcases vulkan_loop_ret_cases g resized env g' rec sub hret with
    ⟨s₀, -, hg, -, -⟩ | ⟨s₀, prev, -, -, -, hg, -, -⟩ |
    ⟨s₀, prev, n, so, fb, -, -, -, -, -, hsub, hflush⟩
  · rw [hg]
    exact hsome
  · rw [hg]
    rfl
  · rcases hflush with ⟨-, hg⟩ | ⟨-, hg⟩ | ⟨-, hg⟩
    · rw [hg]
      simp only [hsub]
      rfl
    · rw [hg]
      rfl
    · rw [hg]
      rfl

/-- Witness for C2: a clean frame replaces the handle with the flushed future,
which is Some. -/
theorem C2_witness :
    g800.vulkan_loop false okEnv =
      LoopOutcome.ret g800' (some cmd800) (some fut800) ∧
    g800'.previous_frame_end.isSome = true := by
  have hret : g800.vulkan_loop false okEnv =
      LoopOutcome.ret g800' (some cmd800) (some fut800) := by decide
  exact ⟨hret,
    C2_previous_frame_end_always_some g800 false okEnv g800' (some cmd800)
      (some fut800) (by decide) hret⟩

/-- Claim C4: the staleness flag is sticky — whenever the frame enters with the
flag effectively set (by carry-over or by the resize signal, which always
forces it) and no successful recreation happens, the flag is still set
afterwards; only a successful recreation ever clears it; and a resize signal
with a rejected recreation leaves the flag set and the frame abandoned. -/
theorem C4_stale_flag_sticky
    (g : GraphicsHandler) (resized : Bool) (env : FrameEnv)
    (g' : GraphicsHandler) (rec : Option CommandBuffer) (sub : Option GpuFuture)
    (hret : g.vulkan_loop resized env = LoopOutcome.ret g' rec sub) :
    ((resized || g.swapchain.must_recreate) = true →
      env.recreate ≠ RecreateResult.ok → g'.swapchain.must_recreate = true) ∧
    (g'.swapchain.must_recreate = false →
      (resized || g.swapchain.must_recreate) = true →
      env.recreate = RecreateResult.ok) ∧
    (resized = true → env.recreate = RecreateResult.unsupportedDimensions →
      g'.swapchain.must_recreate = true ∧ rec = none ∧ sub = none) := by
  rcases vulkan_loop_ret_cases g resized env g' rec sub hret with
    ⟨s₀, herr, hg, hrecn, hsubn⟩ | ⟨s₀, prev, hchk, hprev, hacq, hg, hrecn, hsubn⟩ |
    ⟨s₀, prev, n, so, fb, hchk, hprev, hacq, hfb, hrecs, hsubs, hflush⟩
  · rcases check_and_recreate_err_elim herr with ⟨hs₀, hm, hres⟩
    rw [set_recreate_must_recreate] at hm
    subst hs₀
    subst hg
    refine ⟨fun _ _ => by simp [hm], fun hf _ => by simp [hm] at hf,
      fun _ _ => by simp [hm, hrecn, hsubn]⟩
  · subst hg
    refine ⟨fun _ _ => by simp, fun hf _ => by simp at hf, fun hrz hud => ?_⟩
    rcases check_and_recreate_ok_elim hchk with ⟨hm, -⟩ | ⟨-, hres, -⟩
    · rw [set_recreate_must_recreate, hrz] at hm
      cases hm
    · rw [hud] at hres
      cases hres
  · refine ⟨fun hmerged hne => ?_, fun hf hmerged => ?_, fun hrz hud => ?_⟩
    · rcases check_and_recreate_ok_elim hchk with ⟨hm, -⟩ | ⟨-, hres, -⟩
      · rw [set_recreate_must_recreate, hmerged] at hm
        cases hm
      · exact absurd hres hne
    · rcases check_and_recreate_ok_elim hchk with ⟨hm, -⟩ | ⟨-, hres, -⟩
      · rw [set_recreate_must_recreate, hmerged] at hm
        cases hm
      · exact hres
    · rcases check_and_recreate_ok_elim hchk with ⟨hm, -⟩ | ⟨-, hres, -⟩
      · rw [set_recreate_must_recreate, hrz] at hm
        cases hm
      · rw [hud] at hres
        cases hres

/-- Witness for C4: a stale handler whose recreation is rejected keeps the
flag set through the abandoned frame. -/
theorem C4_witness :
    gStale800.vulkan_loop false
        { okEnv with windowSize := (0, 0), recreate := .unsupportedDimensions } =
      LoopOutcome.ret ⟨staleChain800.set_recreate true, some GpuFuture.now⟩
        none none ∧
    (⟨staleChain800.set_recreate true, some GpuFuture.now⟩ :
        GraphicsHandler).swapchain.must_recreate = true := by
  have hret : gStale800.vulkan_loop false
      { okEnv with windowSize := (0, 0), recreate := .unsupportedDimensions } =
      LoopOutcome.ret ⟨staleChain800.set_recreate true, some GpuFuture.now⟩
        none none := by decide
  exact ⟨hret,
    (C4_stale_flag_sticky gStale800 false
        { okEnv with windowSize := (0, 0), recreate := .unsupportedDimensions }
        ⟨staleChain800.set_recreate true, some GpuFuture.now⟩ none none hret).1
      (by decide) (by decide)⟩

/-- Claim C3: every frame that reaches submission executes its command buffer
after a wait-set that is exactly the join of (a) the previous frame's
completion future and (b) the acquire token of the image acquired this frame;
a successful flush installs the produced future as the new
previous-completion handle. -/
theorem C3_submission_wait_set
    (g : GraphicsHandler) (resized : Bool) (env : FrameEnv)
    (g' : GraphicsHandler) (cmd : CommandBuffer) (fut prev : GpuFuture)
    (hprev : g.previous_frame_end = some prev)
    (hret : g.vulkan_loop resized env = LoopOutcome.ret g' (some cmd) (some fut)) :
    (∃ n so chainDims,
      env.acquire = AcquireResult.ok n so ∧
      fut = GpuFuture.fenceSignal
        (GpuFuture.thenSwapchainPresent
          (GpuFuture.thenExecute (GpuFuture.join prev (GpuFuture.acquire n)) cmd)
          chainDims n)) ∧
    (env.flush = FlushResult.ok → g'.previous_frame_end = some fut) := by
  rcases vulkan_loop_ret_cases g resized env g' (some cmd) (some fut) hret with
    ⟨s₀, -, -, hrecn, -⟩ | ⟨s₀, prev', -, -, -, -, hrecn, -⟩ |
    ⟨s₀, prev', n, so, fb, hchk, hprev', hacq, hfb, hrecs, hsubs, hflush⟩
  · cases hrecn
  · cases hrecn
  · rw [hprev] at hprev'
    injection hprev' with hprev''
    subst hprev''
    injection hrecs with hcmd
    subst hcmd
    injection hsubs with hfut
    subst hfut
    refine ⟨⟨n, so, s₀.chain.dims, hacq, rfl⟩, fun hfl => ?_⟩
    rcases hflush with ⟨-, hg⟩ | ⟨hfl2, -⟩ | ⟨⟨m, hfl2⟩, -⟩
    · rw [hg]
    · rw [hfl] at hfl2
      cases hfl2
    · rw [hfl] at hfl2
      cases hfl2

/-- Witness for C3: the first clean 800×600 frame waits on
now-joined-with-acquire(0) and installs `fut800`. -/
theorem C3_witness :
    (∃ n so chainDims,
      okEnv.acquire = AcquireResult.ok n so ∧
      fut800 = GpuFuture.fenceSignal
        (GpuFuture.thenSwapchainPresent
          (GpuFuture.thenExecute
            (GpuFuture.join GpuFuture.now (GpuFuture.acquire n)) cmd800)
          chainDims n)) ∧
    (okEnv.flush = FlushResult.ok → g800'.previous_frame_end = some fut800) := by
  exact C3_submission_wait_set g800 false okEnv g800' cmd800 fut800 GpuFuture.now
    (by decide) (by decide)

/-- Claim C9: a successful acquisition with the suboptimal hint set does not
abandon the frame — a command buffer is recorded and the execute/present chain
is flushed — and the stale marker is true afterwards (whatever the flush
result), so recreation happens on the next frame. -/
theorem C9_suboptimal_still_renders
    (g : GraphicsHandler) (resized : Bool) (env : FrameEnv)
    (s₀ : SwapchainHandler) (prev : GpuFuture) (n : Nat) (fb : Framebuffer)
    (hchk : (g.swapchain.set_recreate
        (resized || g.swapchain.must_recreate)).check_and_recreate
        env.windowSize env.recreate = RecreateOutcome.ok s₀)
    (hprev : g.previous_frame_end = some prev)
    (hacq : env.acquire = AcquireResult.ok n true)
    (hb1 : env.cmdBuilderOk = true) (hb2 : env.allocOk = true)
    (hfb : s₀.framebuffers.get? n = some fb)
    (hb3 : env.beginPassOk = true) (hb4 : env.drawOk = true)
    (hb5 : env.endPassOk = true) (hb6 : env.buildOk = true)
    (hb7 : env.thenExecuteOk = true) :
    ∃ g',
      g.vulkan_loop resized env =
        LoopOutcome.ret g'
          (some { commands :=
            [Command.beginRenderPass fb [0, 0, 1, 1],
             Command.draw s₀.dynamic_state.viewports triangleVertices,
             Command.endRenderPass] })
          (some (GpuFuture.fenceSignal
            (GpuFuture.thenSwapchainPresent
              (GpuFuture.thenExecute
                (GpuFuture.join prev (GpuFuture.acquire n))
                { commands :=
                  [Command.beginRenderPass fb [0, 0, 1, 1],
                   Command.draw s₀.dynamic_state.viewports triangleVertices,
                   Command.endRenderPass] })
              s₀.chain.dims n))) ∧
      g'.swapchain.must_recreate = true := by
  simp only [GraphicsHandler.vulkan_loop, merged_flag_eq, hchk, hprev, hacq,
    hb1, hb2, hb3, hb4, hb5, hb6, hb7, hfb, set_recreate_framebuffers,
    set_recreate_chain, set_recreate_dynamic_state, Bool.true_eq_false,
    if_false]
  cases hfl : env.flush with
  | ok => exact ⟨_, rfl, rfl⟩
  | outOfDate => exact ⟨_, rfl, rfl⟩
  | otherError m => exact ⟨_, rfl, rfl⟩

/-- Witness for C9: an 800×600 frame acquired with the suboptimal hint still
records, submits and presents, and leaves the flag set. -/
theorem C9_witness :
    ∃ g',
      g800.vulkan_loop false { okEnv with acquire := .ok 0 true } =
        LoopOutcome.ret g'
          (some { commands :=
            [Command.beginRenderPass fb800 [0, 0, 1, 1],
             Command.draw (some (800, 600)) triangleVertices,
             Command.endRenderPass] })
          (some (GpuFuture.fenceSignal
            (GpuFuture.thenSwapchainPresent
              (GpuFuture.thenExecute
                (GpuFuture.join GpuFuture.now (GpuFuture.acquire 0))
                { commands :=
                  [Command.beginRenderPass fb800 [0, 0, 1, 1],
                   Command.draw (some (800, 600)) triangleVertices,
                   Command.endRenderPass] })
              (800, 600) 0))) ∧
      g'.swapchain.must_recreate = true := by
  have h := C9_suboptimal_still_renders g800 false
    { okEnv with acquire := .ok 0 true } (chain800.set_recreate false)
    GpuFuture.now 0 fb800 (by decide) (by decide) (by decide) (by decide)
    (by decide) (by decide) (by decide) (by decide) (by decide) (by decide)
    (by decide)
  exact h

/-- Claim C1 (amended): hard GPU errors during recreation or acquisition are
fatal — the loop panics, terminating the process — but a hard submission/flush
failure other than OutOfDate is not: the engine prints a diagnostic, installs
a fresh already-complete future and keeps rendering. -/
theorem C1_fatal_error_policy
    (g : GraphicsHandler) (resized : Bool) (env : FrameEnv) :
    (∀ msg, (resized || g.swapchain.must_recreate) = true →
      env.recreate = RecreateResult.otherError msg →
      g.vulkan_loop resized env =
        LoopOutcome.panic ("Failed to recreate swapchain: " ++ msg)) ∧
    (∀ msg s₀ prev,
      (g.swapchain.set_recreate
          (resized || g.swapchain.must_recreate)).check_and_recreate
          env.windowSize env.recreate = RecreateOutcome.ok s₀ →
      g.previous_frame_end = some prev →
      env.acquire = AcquireResult.otherError msg →
      g.vulkan_loop resized env =
        LoopOutcome.panic
          ("Couldn't acquire next image from Vulkan Swapchain: " ++ msg)) ∧
    (∀ msg g' cmd fut,
      env.flush = FlushResult.otherError msg →
      g.vulkan_loop resized env = LoopOutcome.ret g' (some cmd) (some fut) →
      g'.previous_frame_end = some GpuFuture.now) := by
  refine ⟨?_, ?_, ?_⟩
  · intro msg hstale hrec
    simp only [GraphicsHandler.vulkan_loop, merged_flag_eq, hstale]
    unfold SwapchainHandler.check_and_recreate
    simp [hrec]
  · intro msg s₀ prev hchk hprev hacq
    simp only [GraphicsHandler.vulkan_loop, merged_flag_eq, hchk, hprev, hacq]
  · intro msg g' cmd fut hfl hret
    rcases vulkan_loop_ret_cases g resized env g' (some cmd) (some fut) hret with
      ⟨s₀, -, -, hr, -⟩ | ⟨s₀, prev, -, -, -, -, hr, -⟩ |
      ⟨s₀, prev, n, so, fb, -, -, -, -, -, -, hflush⟩
    · cases hr
    · cases hr
    · rcases hflush with ⟨hfl2, -⟩ | ⟨hfl2, -⟩ | ⟨-, hg⟩
      · rw [hfl] at hfl2
        cases hfl2
      · rw [hfl] at hfl2
        cases hfl2
      · rw [hg]

/-- Witness for C1 (amended): recreation and acquisition device-loss panic;
a flush device-loss leaves the engine running with a fresh now-future. -/
theorem C1_witness :
    gStale800.vulkan_loop false
        { okEnv with recreate := .otherError ("device lost") } =
      LoopOutcome.panic ("Failed to recreate swapchain: " ++ "device lost") ∧
    g800.vulkan_loop false { okEnv with acquire := .otherError ("device lost") } =
      LoopOutcome.panic
        ("Couldn't acquire next image from Vulkan Swapchain: " ++ "device lost") ∧
    (⟨chain800, some GpuFuture.now⟩ : GraphicsHandler).previous_frame_end =
      some GpuFuture.now := by
  refine ⟨?_, ?_, ?_⟩
  · exact (C1_fatal_error_policy gStale800 false
      { okEnv with recreate := .otherError ("device lost") }).1 "device lost"
      (by decide) (by decide)
  · exact (C1_fatal_error_policy g800 false
      { okEnv with acquire := .otherError ("device lost") }).2.1 "device lost"
      (chain800.set_recreate false) GpuFuture.now (by decide) (by decide)
      (by decide)
  · exact (C1_fatal_error_policy g800 false
      { okEnv with flush := .otherError ("device lost") }).2.2 "device lost"
      ⟨chain800, some GpuFuture.now⟩ cmd800 fut800 (by decide) (by decide)

/-- Counterexample to claim C1 as stated: a hard (non-OutOfDate) flush failure
such as device-lost does NOT terminate the process — the loop body returns
normally with a fresh completion future installed, and the very next frame
renders again. -/
theorem C1_counterexample :
    ({ okEnv with flush := .otherError ("device lost") } : FrameEnv).flush =
      FlushResult.otherError ("device lost") ∧
    (g800.vulkan_loop false
      { okEnv with flush := .otherError ("device lost") }).isPanic = false ∧
    g800.vulkan_loop false { okEnv with flush := .otherError ("device lost") } =
      LoopOutcome.ret ⟨chain800, some GpuFuture.now⟩ (some cmd800) (some fut800) ∧
    GraphicsHandler.vulkan_loop ⟨chain800, some GpuFuture.now⟩ false okEnv =
      LoopOutcome.ret g800' (some cmd800) (some fut800) := by
  exact ⟨rfl, by decide, by decide, by decide⟩

end RustMagma
